import Mathlib

/-!
Verification of the `RetryQueue` component (src/crawlbase/retry-queue.js style
module of the crawlbase-mcp repository): a bounded-concurrency work queue with
exponential backoff and classification of retryable vs. fatal errors.

The embedding models the JavaScript values the queue inspects, the error
classification `shouldRetry`, the backoff computation `calculateDelay` (over ℚ,
with the random jitter factor made an explicit parameter), and the retry loop
`executeWithRetry` as a fuel-indexed recursion that also records the number of
task invocations and the list of backoff sleeps, so that attempt counts and
sleep behaviour are provable observables.
-/

namespace RetryQueueModel

/-- A JavaScript runtime value, as far as `RetryQueue` inspects it.  The queue
only ever looks at: whether the value is a non-null object, whether it is an
`instanceof Error`, and its `status`, `code` and `name` fields.  `vErr` is an
object that is an `Error` instance (carrying its `message`); `vObj` is a plain
non-null object.  Absent (`undefined`) fields are `none`. -/
inductive JSVal where
  | vStr (s : String)
  | vNum (n : Int)
  | vBool (b : Bool)
  | vNull
  | vUndefined
  | vErr (message : String) (status : Option Int) (code : Option String) (name : Option String)
  | vObj (status : Option Int) (code : Option String) (name : Option String)
  deriving DecidableEq, Repr

/-- `typeof error === 'object' && error !== null` (in JavaScript `typeof null`
is `'object'`, but the source guards with `error !== null`). -/
def isObject : JSVal → Bool
  | .vErr _ _ _ _ => true
  | .vObj _ _ _ => true
  | _ => false

/-- `error instanceof Error`. -/
def isErrorInstance : JSVal → Bool
  | .vErr _ _ _ _ => true
  | _ => false

/-- The `status` field (`undefined`, i.e. `none`, off objects that lack it and
off all primitives). -/
def statusOf : JSVal → Option Int
  | .vErr _ st _ _ => st
  | .vObj st _ _ => st
  | _ => none

/-- The `code` field. -/
def codeOf : JSVal → Option String
  | .vErr _ _ cd _ => cd
  | .vObj _ cd _ => cd
  | _ => none

/-- The `name` field. -/
def nameOf : JSVal → Option String
  | .vErr _ _ _ nm => nm
  | .vObj _ _ nm => nm
  | _ => none

/-- JavaScript `String(v)` on the values of the model.  (On an `Error`
instance it is `name: message`; on a plain object `[object Object]`.) -/
def jsString : JSVal → String
  | .vStr s => s
  | .vNum n => toString n
  | .vBool b => if b then "true" else "false"
  | .vNull => "null"
  | .vUndefined => "undefined"
  | .vErr m _ _ nm =>
      let n := nm.getD "Error"
      if m = "" then n else n ++ ": " ++ m
  | .vObj _ _ _ => "[object Object]"

/-- `lastError = error instanceof Error ? error : new Error(String(error))`
from `executeWithRetry`: an `Error` instance passes through unchanged, any
other thrown value is replaced by a fresh `Error` whose message is
`String(error)` (name `Error`, no `status`, no `code`). -/
def toError (e : JSVal) : JSVal :=
  if isErrorInstance e then e else .vErr (jsString e) none none (some "Error")

/-- `RetryQueue.shouldRetry`, translated check for check from the source:
```
if (typeof error === 'object' && error !== null) {
  if (err.status === 429) return true;
  if (err.status >= 500) return true;
  if (err.code === 'ECONNRESET') return true;
  if (err.code === 'ECONNREFUSED') return true;
  if (err.code === 'ETIMEDOUT') return true;
  if (err.name === 'AbortError') return true;
  if (err.name === 'TimeoutError') return true;
}
return false;
```
(`err.status >= 500` is `false` in JavaScript when `status` is `undefined`). -/
def shouldRetry (error : JSVal) : Bool :=
  if isObject error then
    if statusOf error = some 429 then true
    else if (match statusOf error with | some s => decide (500 ≤ s) | none => false) then true
    else if codeOf error = some "ECONNRESET" then true
    else if codeOf error = some "ECONNREFUSED" then true
    else if codeOf error = some "ETIMEDOUT" then true
    else if nameOf error = some "AbortError" then true
    else if nameOf error = some "TimeoutError" then true
    else false
  else false

/-- `this.maxRetries = 3` from the constructor. -/
def maxRetries : Nat := 3

/-- `this.baseDelay = 1000` from the constructor (milliseconds, over ℚ). -/
def baseDelay : ℚ := 1000

/-- `RetryQueue.calculateDelay`: `exponentialDelay = baseDelay * 2^attempt`;
`jitter = Math.random() * 0.1 * exponentialDelay`; result is their sum.
`rand` is the value drawn by `Math.random()`, in `[0, 1)`. -/
def calculateDelay (attempt : Nat) (rand : ℚ) : ℚ :=
  let exponentialDelay := baseDelay * 2 ^ attempt
  let jitter := rand * (1 / 10) * exponentialDelay
  exponentialDelay + jitter

/-- Outcome of one attempt of a task: the underlying `fn()` either returns a
value or throws one. -/
inductive Outcome where
  | ok (v : JSVal)
  | thr (e : JSVal)
  deriving DecidableEq, Repr

deriving instance DecidableEq for Except

/-- Observable result of a run of `executeWithRetry`: the settled value of the
returned promise, the number of times `fn` was invoked, and the list of
backoff delays slept (in order). -/
structure RunResult where
  result : Except JSVal JSVal
  calls : Nat
  sleeps : List ℚ
  deriving DecidableEq, Repr

/-- One step of the `for (let attempt = 0; attempt <= this.maxRetries; ...)`
loop of `executeWithRetry`.  `task k` is the outcome of the `k`-th (0-based)
invocation of `fn`; `jitter k` is the `Math.random()` draw used for the delay
after attempt `k`.  `fuel` counts the loop iterations still permitted
(`maxRetries + 1 - attempt`); the `fuel = 0` case is the dead trailing
`throw lastError` after the loop, which rethrows the carried `lastError`
(initially `null`). -/
def execLoop (mr : Nat) (task : Nat → Outcome) (jitter : Nat → ℚ) :
    Nat → Nat → JSVal → RunResult
  | 0, _, lastErr => ⟨.error lastErr, 0, []⟩
  | fuel + 1, attempt, _ =>
    match task attempt with
    | .ok v => ⟨.ok v, 1, []⟩
    | .thr e =>
      let lastErr := toError e
      if attempt = mr then ⟨.error lastErr, 1, []⟩
      else if shouldRetry e then
        let d := calculateDelay attempt (jitter attempt)
        let r := execLoop mr task jitter fuel (attempt + 1) lastErr
        ⟨r.result, r.calls + 1, d :: r.sleeps⟩
      else ⟨.error lastErr, 1, []⟩

/-- `RetryQueue.executeWithRetry`, with the retry budget `mr` (`this.maxRetries`)
explicit. -/
def executeWithRetry (mr : Nat) (task : Nat → Outcome) (jitter : Nat → ℚ) : RunResult :=
  execLoop mr task jitter (mr + 1) 0 .vNull

/-- `RetryQueue.add`: the queued wrapper just awaits `executeWithRetry(fn)` and
the promise returned by `queue.add` settles with that call's own outcome, so
the caller-visible result is `executeWithRetry` at the instance's
`maxRetries`. -/
def add (task : Nat → Outcome) (jitter : Nat → ℚ) : RunResult :=
  executeWithRetry maxRetries task jitter

/-- The options named by the spec's configuration surface, each possibly
omitted. -/
structure QueueOptions where
  maxConcurrency : Option Nat
  windowMs : Option Nat
  maxAdmissionsPerWindow : Option Nat
  maxRetries : Option Nat
  baseDelayMs : Option ℚ
  deriving DecidableEq, Repr

/-- The five parameters an instance actually holds after construction
(`concurrency`/`interval`/`intervalCap` configure the inner `PQueue`). -/
structure QueueConfig where
  concurrency : Nat
  interval : Nat
  intervalCap : Nat
  maxRetries : Nat
  baseDelay : ℚ
  deriving DecidableEq, Repr

/-- The source constructor: `constructor()` declares no parameter, so by
JavaScript semantics any argument passed to `new RetryQueue(...)` is ignored,
and the fields are set to the fixed literals
`{concurrency: 20, interval: 1000, intervalCap: 20}`, `maxRetries = 3`,
`baseDelay = 1000`. -/
def RetryQueue.new (_opts : QueueOptions) : QueueConfig :=
  ⟨20, 1000, 20, 3, 1000⟩

/-- Modelled from the spec: the constructor the configuration-surface sentence
describes — it recognizes the five options `maxConcurrency`, `windowMs`,
`maxAdmissionsPerWindow`, `maxRetries`, `baseDelayMs` and applies the defaults
`20, 1000, 20, 3, 1000` when an option is omitted.  (No such constructor exists
in the source; it is stated here only to be compared with `RetryQueue.new`.) -/
def specConstructor (opts : QueueOptions) : QueueConfig :=
  ⟨opts.maxConcurrency.getD 20, opts.windowMs.getD 1000,
   opts.maxAdmissionsPerWindow.getD 20, opts.maxRetries.getD 3,
   opts.baseDelayMs.getD 1000⟩

lemma toError_of_errorInstance (e : JSVal) (h : isErrorInstance e = true) : toError e = e := by
  simp [toError, h]

lemma execLoop_calls_le (mr : Nat) (task : Nat → Outcome) (jitter : Nat → ℚ) :
    ∀ fuel attempt lastErr, (execLoop mr task jitter fuel attempt lastErr).calls ≤ fuel := by
  intro fuel
  induction fuel with
  | zero => intro attempt lastErr; simp [execLoop]
  | succ f ih =>
    intro attempt lastErr
    simp only [execLoop]
    cases task attempt with
    | ok v => simp
    | thr e =>
      simp only
      split
      · simp
      · split
        · simpa using ih (attempt + 1) (toError e)
        · simp

lemma execLoop_all_retryable (mr : Nat) (task : Nat → Outcome) (jitter : Nat → ℚ)
    (e : Nat → JSVal) (hthr : ∀ k, task k = Outcome.thr (e k))
    (hret : ∀ k, shouldRetry (e k) = true) :
    ∀ fuel attempt lastErr, attempt + fuel = mr + 1 → attempt ≤ mr →
      (execLoop mr task jitter fuel attempt lastErr).calls = fuel ∧
      (execLoop mr task jitter fuel attempt lastErr).result = .error (toError (e mr)) := by
  intro fuel
  induction fuel with
  | zero => intro attempt lastErr h1 h2; omega
  | succ f ih =>
    intro attempt lastErr h1 h2
    simp only [execLoop, hthr attempt]
    by_cases hmr : attempt = mr
    · have hf : f = 0 := by omega
      subst hmr
      simp [hf]
    · simp only [if_neg hmr, hret attempt, if_true]
      have h1' : (attempt + 1) + f = mr + 1 := by omega
      have h2' : attempt + 1 ≤ mr := by omega
      have := ih (attempt + 1) (toError (e attempt)) h1' h2'
      exact ⟨by simp [this.1], by simp [this.2]⟩

lemma execLoop_error_from_last_call (mr : Nat) (task : Nat → Outcome) (jitter : Nat → ℚ) :
    ∀ fuel attempt lastErr x, attempt + fuel = mr + 1 → attempt ≤ mr →
      (execLoop mr task jitter fuel attempt lastErr).result = .error x →
      1 ≤ (execLoop mr task jitter fuel attempt lastErr).calls ∧
      ∃ g, task (attempt + (execLoop mr task jitter fuel attempt lastErr).calls - 1) =
          Outcome.thr g ∧ x = toError g := by
  intro fuel
  induction fuel with
  | zero => intro attempt lastErr x h1 h2 h3; omega
  | succ f ih =>
    intro attempt lastErr x h1 h2 h3
    revert h3
    simp only [execLoop]
    cases htask : task attempt with
    | ok v => simp
    | thr e =>
      simp only
      split
      · intro h3
        refine ⟨by simp, e, ?_, by simpa using h3.symm⟩
        simpa using htask
      · rename_i hmr
        split
        · intro h3
          have h1' : (attempt + 1) + f = mr + 1 := by omega
          have h2' : attempt + 1 ≤ mr := by omega
          obtain ⟨hc, g, hg, hx⟩ := ih (attempt + 1) (toError e) x h1' h2' (by simpa using h3)
          refine ⟨by simp, g, ?_, hx⟩
          have harith :
              attempt + ((execLoop mr task jitter f (attempt + 1) (toError e)).calls + 1) - 1 =
              attempt + 1 + (execLoop mr task jitter f (attempt + 1) (toError e)).calls - 1 := by
            omega
          simpa [harith] using hg
        · intro h3
          refine ⟨by simp, e, ?_, by simpa using h3.symm⟩
          simpa using htask

/-- C2: `shouldRetry` returns `true` if and only if the error value has
`status` equal to `429`, or `status ≥ 500`, or `code` equal to `ECONNRESET`,
`ECONNREFUSED` or `ETIMEDOUT`, or `name` equal to `AbortError` or
`TimeoutError`; on every other error value (in particular every value that is
not a non-null object, whose fields are all absent) it returns `false`. -/
theorem c2_shouldRetry_iff (e : JSVal) :
    shouldRetry e = true ↔
      statusOf e = some 429 ∨ (∃ s, statusOf e = some s ∧ 500 ≤ s) ∨
      codeOf e = some "ECONNRESET" ∨ codeOf e = some "ECONNREFUSED" ∨
      codeOf e = some "ETIMEDOUT" ∨
      nameOf e = some "AbortError" ∨ nameOf e = some "TimeoutError" := by
  cases e with
  | vErr m st cd nm =>
    rcases st with _ | s <;>
      simp only [shouldRetry, isObject, statusOf, codeOf, nameOf, if_true] <;>
      split_ifs <;> simp_all
  | vObj st cd nm =>
    rcases st with _ | s <;>
      simp only [shouldRetry, isObject, statusOf, codeOf, nameOf, if_true] <;>
      split_ifs <;> simp_all
  | vStr s => simp [shouldRetry, isObject, statusOf, codeOf, nameOf]
  | vNum n => simp [shouldRetry, isObject, statusOf, codeOf, nameOf]
  | vBool b => simp [shouldRetry, isObject, statusOf, codeOf, nameOf]
  | vNull => simp [shouldRetry, isObject, statusOf, codeOf, nameOf]
  | vUndefined => simp [shouldRetry, isObject, statusOf, codeOf, nameOf]

/-- C4: for every attempt index `k` and every jitter draw `r ∈ [0, 1)`, the
computed delay is `baseDelay * 2^k + r * 0.1 * (baseDelay * 2^k)`, and hence
lies in the half-open interval `[baseDelay * 2^k, baseDelay * 2^k * 1.1)`. -/
theorem c4_delay_formula_and_bounds (k : Nat) (r : ℚ) (h0 : 0 ≤ r) (h1 : r < 1) :
    calculateDelay k r = baseDelay * 2 ^ k + r * (1 / 10) * (baseDelay * 2 ^ k) ∧
    baseDelay * 2 ^ k ≤ calculateDelay k r ∧
    calculateDelay k r < baseDelay * 2 ^ k * (11 / 10) := by
  have hE : (0 : ℚ) < baseDelay * 2 ^ k := by
    have : (0 : ℚ) < baseDelay := by norm_num [baseDelay]
    positivity
  refine ⟨rfl, ?_, ?_⟩ <;> simp only [calculateDelay] <;> nlinarith

/-- C9 witness part of the statement is closed at concrete jitters; the
theorem: for every attempt index `k` and jitter draws `r, r' ∈ [0, 1)`, the
delay after attempt `k` is below `baseDelay * 2^k * 1.1`, which is itself
below `baseDelay * 2^(k+1)`, the least possible delay after attempt `k + 1`;
hence backoff delays are strictly increasing pointwise, for all jitter
outcomes. -/
theorem c9_delays_increase (k : Nat) (r r' : ℚ) (h0 : 0 ≤ r) (h1 : r < 1) (h0' : 0 ≤ r') :
    calculateDelay k r < baseDelay * 2 ^ k * (11 / 10) ∧
    baseDelay * 2 ^ k * (11 / 10) < baseDelay * 2 ^ (k + 1) ∧
    baseDelay * 2 ^ (k + 1) ≤ calculateDelay (k + 1) r' ∧
    calculateDelay k r < calculateDelay (k + 1) r' := by
  have hE : (0 : ℚ) < baseDelay * 2 ^ k := by
    have : (0 : ℚ) < baseDelay := by norm_num [baseDelay]
    positivity
  have hpow : (2 : ℚ) ^ (k + 1) = 2 ^ k * 2 := by ring
  refine ⟨?_, ?_, ?_, ?_⟩ <;> simp only [calculateDelay, hpow] <;> nlinarith

theorem c4_witness :
    calculateDelay 2 (1 / 2) =
        baseDelay * 2 ^ 2 + (1 / 2) * (1 / 10) * (baseDelay * 2 ^ 2) ∧
    baseDelay * 2 ^ 2 ≤ calculateDelay 2 (1 / 2) ∧
    calculateDelay 2 (1 / 2) < baseDelay * 2 ^ 2 * (11 / 10) :=
  c4_delay_formula_and_bounds 2 (1 / 2) (by norm_num) (by norm_num)

theorem c9_witness :
    calculateDelay 0 (9 / 10) < baseDelay * 2 ^ 0 * (11 / 10) ∧
    baseDelay * 2 ^ 0 * (11 / 10) < baseDelay * 2 ^ (0 + 1) ∧
    baseDelay * 2 ^ (0 + 1) ≤ calculateDelay (0 + 1) 0 ∧
    calculateDelay 0 (9 / 10) < calculateDelay (0 + 1) 0 :=
  c9_delays_increase 0 (9 / 10) 0 (by norm_num) (by norm_num) (by norm_num)

/-- C1: for every task whose every attempt fails with an error classified
retryable, `executeWithRetry` (reached via `add`) calls the task exactly
`maxRetries + 1` times and then rejects with the error from the final attempt
(the `lastError` computed from it; when the final error is an `Error` instance
the rejection is that very value); and no task is ever attempted more than
`maxRetries + 1` times. -/
theorem c1_all_retryable_exhausts_budget (mr : Nat) (task : Nat → Outcome)
    (jitter : Nat → ℚ) (e : Nat → JSVal)
    (hthr : ∀ k, task k = Outcome.thr (e k))
    (hret : ∀ k, shouldRetry (e k) = true) :
    (executeWithRetry mr task jitter).calls = mr + 1 ∧
    (executeWithRetry mr task jitter).result = Except.error (toError (e mr)) ∧
    (isErrorInstance (e mr) = true →
      (executeWithRetry mr task jitter).result = Except.error (e mr)) ∧
    (add task jitter).calls = maxRetries + 1 ∧
    ∀ (t : Nat → Outcome) (j : Nat → ℚ) (m : Nat),
      (executeWithRetry m t j).calls ≤ m + 1 := by
  have h := execLoop_all_retryable mr task jitter e hthr hret
    (mr + 1) 0 .vNull (by omega) (by omega)
  have hadd := execLoop_all_retryable maxRetries task jitter e hthr hret
    (maxRetries + 1) 0 .vNull (by omega) (by omega)
  refine ⟨h.1, h.2, ?_, hadd.1, ?_⟩
  · intro hei
    have := h.2
    rwa [toError_of_errorInstance _ hei] at this
  · intro t j m
    exact execLoop_calls_le m t j (m + 1) 0 .vNull

theorem c1_witness :
    (executeWithRetry 1 (fun _ => Outcome.thr (JSVal.vObj (some 429) none none))
        (fun _ => 0)).calls = 1 + 1 ∧
    (executeWithRetry 1 (fun _ => Outcome.thr (JSVal.vObj (some 429) none none))
        (fun _ => 0)).result = Except.error (toError (JSVal.vObj (some 429) none none)) :=
  ⟨(c1_all_retryable_exhausts_budget 1 (fun _ => Outcome.thr (JSVal.vObj (some 429) none none))
      (fun _ => 0) (fun _ => JSVal.vObj (some 429) none none)
      (fun _ => rfl) (fun _ => rfl)).1,
   (c1_all_retryable_exhausts_budget 1 (fun _ => Outcome.thr (JSVal.vObj (some 429) none none))
      (fun _ => 0) (fun _ => JSVal.vObj (some 429) none none)
      (fun _ => rfl) (fun _ => rfl)).2.1⟩

/-- C3: for every task failing on attempt 0 with an error classified
non-retryable, `executeWithRetry` calls the task exactly once, performs no
backoff sleep, and rejects immediately with the `lastError` computed from that
error (that very value when it is an `Error` instance), under the precondition
`maxRetries ≥ 1` so the exhaustion branch is not what fires. -/
theorem c3_nonretryable_fails_once (mr : Nat) (task : Nat → Outcome) (jitter : Nat → ℚ)
    (e : JSVal) (hmr : 1 ≤ mr) (h0 : task 0 = Outcome.thr e)
    (hnr : shouldRetry e = false) :
    executeWithRetry mr task jitter = ⟨Except.error (toError e), 1, []⟩ ∧
    (isErrorInstance e = true →
      executeWithRetry mr task jitter = ⟨Except.error e, 1, []⟩) := by
  obtain ⟨m, rfl⟩ : ∃ m, mr = m + 1 := ⟨mr - 1, by omega⟩
  have hrun : executeWithRetry (m + 1) task jitter = ⟨Except.error (toError e), 1, []⟩ := by
    simp [executeWithRetry, execLoop, h0, hnr]
  exact ⟨hrun, fun hei => by rw [hrun, toError_of_errorInstance _ hei]⟩

theorem c3_witness :
    executeWithRetry 3 (fun _ => Outcome.thr (JSVal.vObj (some 400) none none))
        (fun _ => 0) =
      ⟨Except.error (toError (JSVal.vObj (some 400) none none)), 1, []⟩ :=
  (c3_nonretryable_fails_once 3 (fun _ => Outcome.thr (JSVal.vObj (some 400) none none))
    (fun _ => 0) (JSVal.vObj (some 400) none none) (by norm_num) rfl (by decide)).1

/-- C5 counterexample: a task that throws the string `"boom"` (not an `Error`
instance) is rejected with a value different from the thrown one — the source
replaces it with `new Error(String(error))` — refuting "identical in shape
... for every thrown value, whether or not it is an Error instance". -/
theorem c5_counterexample :
    (executeWithRetry 3 (fun _ => Outcome.thr (JSVal.vStr "boom")) (fun _ => 0)).result ≠
      Except.error (JSVal.vStr "boom") := by
  decide

/-- C5 (amended): whenever a run rejects, some attempt was executed (the
attempts executed are exactly the indices below `calls`), and the rejection
reason delivered to the caller is the `lastError` computed from the value
thrown by the last executed attempt, index `calls - 1`: the thrown value
itself whenever it is an `Error` instance, and otherwise a fresh `Error`
whose message is `String(value)`. -/
theorem c5_rejection_normalized_last_error (mr : Nat) (task : Nat → Outcome)
    (jitter : Nat → ℚ) (x : JSVal)
    (hx : (executeWithRetry mr task jitter).result = Except.error x) :
    1 ≤ (executeWithRetry mr task jitter).calls ∧
    ∃ g, task ((executeWithRetry mr task jitter).calls - 1) = Outcome.thr g ∧
      x = toError g ∧ (isErrorInstance g = true → x = g) := by
  obtain ⟨hc, g, hk, hg⟩ := execLoop_error_from_last_call mr task jitter
    (mr + 1) 0 .vNull x (by omega) (by omega) hx
  exact ⟨hc, g, by simpa using hk, hg,
    fun hei => by rw [hg, toError_of_errorInstance _ hei]⟩

theorem c5_witness :
    1 ≤ (executeWithRetry 3
        (fun k => if k = 0 then Outcome.thr (JSVal.vObj (some 429) none none)
                  else Outcome.thr (JSVal.vStr "fatal")) (fun _ => 0)).calls ∧
    ∃ g, (fun k => if k = 0 then Outcome.thr (JSVal.vObj (some 429) none none)
                  else Outcome.thr (JSVal.vStr "fatal"))
        ((executeWithRetry 3
          (fun k => if k = 0 then Outcome.thr (JSVal.vObj (some 429) none none)
                    else Outcome.thr (JSVal.vStr "fatal")) (fun _ => 0)).calls - 1) =
        Outcome.thr g ∧
      JSVal.vErr "fatal" none none (some "Error") = toError g ∧
      (isErrorInstance g = true → JSVal.vErr "fatal" none none (some "Error") = g) :=
  c5_rejection_normalized_last_error 3
    (fun k => if k = 0 then Outcome.thr (JSVal.vObj (some 429) none none)
              else Outcome.thr (JSVal.vStr "fatal"))
    (fun _ => 0) (JSVal.vErr "fatal" none none (some "Error")) (by decide)

/-- C6 counterexample: passing the option `maxRetries = 5` to the source
constructor still yields `maxRetries = 3` — the constructor declares no
parameter and ignores any argument — whereas the spec's constructor (modelled
as `specConstructor`) would yield 5. -/
theorem c6_counterexample :
    (RetryQueue.new ⟨none, none, none, some 5, none⟩).maxRetries = 3 ∧
    (specConstructor ⟨none, none, none, some 5, none⟩).maxRetries = 5 ∧
    RetryQueue.new ⟨none, none, none, some 5, none⟩ ≠
      specConstructor ⟨none, none, none, some 5, none⟩ := by
  refine ⟨rfl, rfl, ?_⟩
  decide

/-- C6 (amended): the constructor accepts no options — any configuration
argument is ignored — and every instance holds the fixed, immutable parameters
`concurrency 20, interval 1000, intervalCap 20, maxRetries 3, baseDelay 1000`,
i.e. exactly what the spec's constructor would produce with every option
omitted. -/
theorem c6_constructor_ignores_options (opts : QueueOptions) :
    RetryQueue.new opts = ⟨20, 1000, 20, 3, 1000⟩ ∧
    RetryQueue.new opts = specConstructor ⟨none, none, none, none, none⟩ :=
  ⟨rfl, rfl⟩

/-- C7: for every task that succeeds on attempt 0, `executeWithRetry` (and
`add`, which runs it at the instance's `maxRetries`) resolves with exactly
that success value after a single call, with no backoff sleep. -/
theorem c7_success_resolves_immediately (mr : Nat) (task : Nat → Outcome)
    (jitter : Nat → ℚ) (v : JSVal) (h0 : task 0 = Outcome.ok v) :
    executeWithRetry mr task jitter = ⟨Except.ok v, 1, []⟩ ∧
    add task jitter = ⟨Except.ok v, 1, []⟩ := by
  have h : ∀ m : Nat, executeWithRetry m task jitter = ⟨Except.ok v, 1, []⟩ := by
    intro m
    simp [executeWithRetry, execLoop, h0]
  exact ⟨h mr, h maxRetries⟩

theorem c7_witness :
    executeWithRetry 3 (fun _ => Outcome.ok (JSVal.vStr "page")) (fun _ => 0) =
      ⟨Except.ok (JSVal.vStr "page"), 1, []⟩ :=
  (c7_success_resolves_immediately 3 (fun _ => Outcome.ok (JSVal.vStr "page"))
    (fun _ => 0) (JSVal.vStr "page") rfl).1

/-- C10: every thrown value that is not a non-null object — a string, number,
boolean, `null` or `undefined` — is classified non-retryable by `shouldRetry`,
so a task throwing such a value on attempt 0 is attempted exactly once, sleeps
never, and fails immediately, even when the value textually names a retryable
condition. -/
theorem c10_nonobject_never_retried (mr : Nat) (task : Nat → Outcome)
    (jitter : Nat → ℚ) (e : JSVal) (hobj : isObject e = false)
    (h0 : task 0 = Outcome.thr e) :
    shouldRetry e = false ∧
    (executeWithRetry mr task jitter).calls = 1 ∧
    (executeWithRetry mr task jitter).sleeps = [] ∧
    (executeWithRetry mr task jitter).result = Except.error (toError e) := by
  have hnr : shouldRetry e = false := by simp [shouldRetry, hobj]
  have hrun : executeWithRetry mr task jitter = ⟨Except.error (toError e), 1, []⟩ := by
    cases mr with
    | zero => simp [executeWithRetry, execLoop, h0]
    | succ m => simp [executeWithRetry, execLoop, h0, hnr]
  exact ⟨hnr, by rw [hrun], by rw [hrun], by rw [hrun]⟩

theorem c10_witness :
    shouldRetry (JSVal.vStr "ETIMEDOUT") = false ∧
    (executeWithRetry 3 (fun _ => Outcome.thr (JSVal.vStr "ETIMEDOUT"))
        (fun _ => 0)).calls = 1 ∧
    (executeWithRetry 3 (fun _ => Outcome.thr (JSVal.vStr "ETIMEDOUT"))
        (fun _ => 0)).sleeps = [] ∧
    (executeWithRetry 3 (fun _ => Outcome.thr (JSVal.vStr "ETIMEDOUT"))
        (fun _ => 0)).result = Except.error (toError (JSVal.vStr "ETIMEDOUT")) :=
  c10_nonobject_never_retried 3 (fun _ => Outcome.thr (JSVal.vStr "ETIMEDOUT"))
    (fun _ => 0) (JSVal.vStr "ETIMEDOUT") (by decide) rfl

end RetryQueueModel
